import Mathlib

/-!
Verification of `scripts/pull_transcripts.py` (youtubetranscript repository).

Python strings are modelled as `List Char` (one element per Unicode code
point, matching Python's `len` and slicing semantics).  Machine floats are
modelled as exact rationals; every concrete evaluation below is at an input
whose rounding direction has a margin far larger than double-precision
error, so the rational model and the float computation agree there.
External collaborators (the yt-dlp subprocess, the captions service,
the filesystem) are modelled as explicit inputs / effect traces.
-/

namespace PullTranscripts

/-- Python strings as lists of code points. -/
abbrev PyStr := List Char

/-- The ASCII whitespace characters recognised by Python's `str.strip`,
`str.rstrip` and the regex class for whitespace.  (Python also treats some
further Unicode space code points as whitespace; in `safe_filename` those
are removed earlier by the printable filter, so restricting the model to
the ASCII set is faithful there.  In `join_text` the restriction only
narrows which characters count as trimmable.) -/
def isPySpace (c : Char) : Bool :=
  c = ' ' || c = '\t' || c = '\n' || c = '\r' || c = '\x0b' || c = '\x0c'

/-- Python `str.strip()`: drop whitespace from both ends. -/
def pyStrip (s : PyStr) : PyStr :=
  ((s.dropWhile isPySpace).reverse.dropWhile isPySpace).reverse

/-- Python `str.rstrip()`: drop whitespace from the right end. -/
def pyRstrip (s : PyStr) : PyStr :=
  (s.reverse.dropWhile isPySpace).reverse

/-- Python `s.replace(old, new)` for a single-character pattern and a
single-character replacement. -/
def pyReplaceChar (old new : Char) (s : PyStr) : PyStr :=
  s.map (fun c => if c = old then new else c)

/-- `re.sub(r"[class]+", r, s)` for a character class `p`: every maximal
run of characters satisfying `p` is replaced by the single character `r`.
`prev` records whether the previous character belonged to a run. -/
def collapseRunsAux (p : Char → Bool) (r : Char) : Bool → PyStr → PyStr
  | _, [] => []
  | prev, c :: cs =>
    if p c then
      if prev then collapseRunsAux p r true cs
      else r :: collapseRunsAux p r true cs
    else c :: collapseRunsAux p r false cs

def collapseRuns (p : Char → Bool) (r : Char) (s : PyStr) : PyStr :=
  collapseRunsAux p r false s

/-- The character class `[\\/:*?"<>|]` of `safe_filename`'s first regex. -/
def isBadFileChar (c : Char) : Bool :=
  c = '\\' || c = '/' || c = ':' || c = '*' || c = '?' || c = '"' ||
  c = '<' || c = '>' || c = '|'

/-- Python `ch.isprintable()`, restricted to a modelled set of
non-printable code points: the Cc controls (U+0000..U+001F,
U+007F..U+009F) together with the common Zs / Zl / Zp / Cf code points
listed below.  Every concrete character evaluated in this development is
classified exactly as CPython classifies it. -/
def pyIsPrintable (c : Char) : Bool :=
  !(c.val < 32 || (127 ≤ c.val && c.val ≤ 159) ||
    c.val = 0xa0 || c.val = 0xad || c.val = 0x1680 ||
    (0x2000 ≤ c.val && c.val ≤ 0x200f) ||
    c.val = 0x2028 || c.val = 0x2029 || c.val = 0x202f ||
    c.val = 0x205f || c.val = 0x2060 || c.val = 0x3000 || c.val = 0xfeff)

/-- `unicodedata.normalize("NFKC", ...)` modelled per code point,
restricted to the code points this development evaluates: NFKC is the
identity on ASCII and on all other characters without a compatibility
decomposition; U+2460 CIRCLED DIGIT ONE has compatibility decomposition
"1".  (Multi-character composition sequences are outside the modelled
subset; no theorem below evaluates the function on one.) -/
def nfkcChar (c : Char) : PyStr :=
  if c = '①' then ['1'] else [c]

def nfkcNormalize (s : PyStr) : PyStr := s.flatMap nfkcChar

/-- `unicodedata.normalize("NFC", ...)` modelled per code point on the
same subset: NFC (canonical composition only) is the identity on every
code point this development evaluates, including U+2460, which has no
canonical decomposition. -/
def nfcChar (c : Char) : PyStr := [c]

def nfcNormalize (s : PyStr) : PyStr := s.flatMap nfcChar

/-- `safe_filename(name, suffix, max_len)` from the source, line for line:
NFKC-normalize, keep printable characters, replace runs of forbidden
filename characters by a space, collapse whitespace runs and strip, then
truncate the base so that base+suffix fits `max_len` (clamping the base
budget to a minimum of 1) and append the suffix. -/
def safe_filename (name suffix : PyStr) (max_len : Nat) : PyStr :=
  let n1 := nfkcNormalize name
  let n2 := n1.filter pyIsPrintable
  let n3 := collapseRuns isBadFileChar ' ' n2
  let n4 := pyStrip (collapseRuns isPySpace ' ' n3)
  let bm : Int := (max_len : Int) - (suffix.length : Int)
  let base_max : Nat := if bm < 1 then 1 else bm.toNat
  let n5 := if base_max < n4.length then pyRstrip (n4.take base_max) else n4
  n5 ++ suffix

/-! ## Timestamp formatting (`to_srt.fmt`) -/

/-- Python `int(x)` on a number: truncation toward zero. -/
def pyInt (q : ℚ) : ℤ := if q < 0 then ⌈q⌉ else ⌊q⌋

/-- Python `x % m` for `m > 0`: the nonnegative remainder `x - m*⌊x/m⌋`. -/
def pyMod (x m : ℚ) : ℚ := x - m * ⌊x / m⌋

/-- Python's built-in `round` to an integer: round half to even. -/
def pyRound (q : ℚ) : ℤ :=
  let f := ⌊q⌋
  if q - f < 1 / 2 then f
  else if 1 / 2 < q - f then f + 1
  else if f % 2 = 0 then f else f + 1

/-- The decimal digits of a natural number, as code points. -/
def natDigits (n : Nat) : PyStr := (toString n).toList

/-- Python `f"{n:0wd}"` for a natural number: zero-pad to width `w`
(numbers with more digits are printed in full, not truncated). -/
def padNat (w : Nat) (n : Nat) : PyStr :=
  List.replicate (w - (natDigits n).length) '0' ++ natDigits n

/-- Python `f"{n:0wd}"` for an int: the sign counts toward the width. -/
def padIntPy (w : Nat) (n : ℤ) : PyStr :=
  if n < 0 then '-' :: padNat (w - 1) n.natAbs else padNat w n.toNat

/-- `fmt(t)` from `to_srt`, line for line:
`h = int(t // 3600)`; `m = int((t % 3600) // 60)`; `s = int(t % 60)`;
`ms = int(round((t - int(t)) * 1000))`; rendered as
`f"{h:02}:{m:02}:{s:02},{ms:03}"`. -/
def fmt (t : ℚ) : PyStr :=
  let hh : ℤ := ⌊t / 3600⌋
  let mm : ℤ := ⌊pyMod t 3600 / 60⌋
  let ss : ℤ := pyInt (pyMod t 60)
  let ms : ℤ := pyRound ((t - (pyInt t : ℚ)) * 1000)
  padIntPy 2 hh ++ ':' :: padIntPy 2 mm ++ ':' :: padIntPy 2 ss ++
    ',' :: padIntPy 3 ms

/-! ## Caption chunks and the text/subtitle formatter -/

/-- A caption chunk as returned by the captions service:
`{"text": ..., "start": ..., "duration": ...}`, where `text` and
`duration` are read with `.get` (may be absent) and `start` with
indexing (required). -/
structure CaptionChunk where
  text : Option PyStr
  start : ℚ
  duration : Option ℚ
deriving DecidableEq

/-- `x.get("text") or ""`. -/
def chunkTextRaw (c : CaptionChunk) : PyStr := c.text.getD []

/-- Python `sep.join(parts)`. -/
def sepJoin (sep : PyStr) : List PyStr → PyStr
  | [] => []
  | [x] => x
  | x :: y :: ys => x ++ sep ++ sepJoin sep (y :: ys)

/-- `join_text(chunks)` from the source:
`" ".join((x.get("text") or "").replace("\n", " ").strip()
for x in chunks if x.get("text"))`. -/
def join_text (chunks : List CaptionChunk) : PyStr :=
  sepJoin [' ']
    ((chunks.filter (fun c => !(chunkTextRaw c).isEmpty)).map
      (fun c => pyStrip (pyReplaceChar '\n' ' ' (chunkTextRaw c))))

/-- The block lines of `to_srt`'s loop, 1-indexed: index line, time-range
line, processed text, blank separator. -/
def srtBlocks : Nat → List CaptionChunk → List PyStr
  | _, [] => []
  | i, it :: rest =>
    natDigits i ::
    (fmt it.start ++ " --> ".toList ++ fmt (it.start + it.duration.getD 0)) ::
    pyStrip (pyReplaceChar '\n' ' ' (chunkTextRaw it)) ::
    [] ::
    srtBlocks (i + 1) rest

/-- `to_srt(chunks)` from the source: `"\n".join(lines)`. -/
def to_srt (chunks : List CaptionChunk) : PyStr :=
  sepJoin ['\n'] (srtBlocks 1 chunks)

/-! ## Transcript Fetcher -/

/-- One transcript track from the captions-service listing.
`translateFetchEn` is the observable outcome of
`tr.translate("en").fetch()`: `some chunks` when both calls succeed,
`none` when either raises. -/
structure TranscriptTrack where
  language_code : PyStr
  is_translatable : Bool
  translateFetchEn : Option (List CaptionChunk)
deriving DecidableEq

/-- The outcome of `YouTubeTranscriptApi.list_transcripts(vid)` plus the
observable outcomes of the two guarded English-track lookups
(`find_manually_created_transcript(["en"]).fetch()` and
`find_generated_transcript(["en"]).fetch()`); each is `none` when any
call in its `try` block raises. -/
structure TranscriptListing where
  tracks : List TranscriptTrack
  findManualEn : Option (List CaptionChunk)
  findGeneratedEn : Option (List CaptionChunk)
deriving DecidableEq

inductive FetchRaise
  | noTranscriptFound
deriving DecidableEq

/-- The `for tr in listing` translation loop of
`fetch_best_english_transcript`: the first translatable track whose
translate-and-fetch succeeds wins; a failed attempt hits `continue`. -/
def translateLoop : List TranscriptTrack → Option (List CaptionChunk × PyStr)
  | [] => none
  | tr :: rest =>
    if tr.is_translatable then
      match tr.translateFetchEn with
      | some c => some (c, tr.language_code ++ "->en".toList)
      | none => translateLoop rest
    else translateLoop rest

/-- `fetch_best_english_transcript(vid)` from the source.  `direct` is the
observable outcome of the guarded
`YouTubeTranscriptApi.get_transcript(vid, languages=["en"])` call
(`none` when it raises); `listing` packages the track listing, which the
claimed scenario assumes has itself succeeded. -/
def fetch_best_english_transcript (direct : Option (List CaptionChunk))
    (listing : TranscriptListing) :
    Except FetchRaise (List CaptionChunk × PyStr) :=
  match direct with
  | some c => .ok (c, "en".toList)
  | none =>
    match listing.findManualEn with
    | some c => .ok (c, "en".toList)
    | none =>
      match listing.findGeneratedEn with
      | some c => .ok (c, "en-auto".toList)
      | none =>
        match translateLoop listing.tracks with
        | some r => .ok r
        | none => .error .noTranscriptFound

/-! ## Playlist Lister -/

/-- One element of the parsed JSON document's "entries" array; each field
is read with `.get` and so may be absent. -/
structure YtEntry where
  id : Option PyStr
  title : Option PyStr
  webpage_url : Option PyStr
deriving DecidableEq

/-- The parsed JSON document; `entries` read as `data.get("entries", [])`. -/
structure YtJson where
  entries : Option (List YtEntry)
deriving DecidableEq

structure PlaylistEntry where
  video_id : PyStr
  title : PyStr
  url : PyStr
deriving DecidableEq

/-- The failure of `run_yt_dlp_list`, as named by the specification:
`toolFailed` is `subprocess.CalledProcessError` raised by `check_output`
on a non-zero exit status, `parseFailed` is the `json.loads` failure on
unparseable output. -/
inductive FetchError
  | toolFailed (exitStatus : Int)
  | parseFailed
deriving DecidableEq

/-- Python truthiness of an optional string: present and non-empty. -/
def pyTruthy (s : Option PyStr) : Bool :=
  match s with
  | some l => !l.isEmpty
  | none => false

/-- The loop body of `run_yt_dlp_list`: build `{video_id, title, url}`
from one raw entry, or drop it when `vid and url` is falsy. -/
def listerItem (e : YtEntry) : Option PlaylistEntry :=
  let vid := e.id.getD []
  let title := pyStrip (e.title.getD [])
  let url : PyStr :=
    if pyTruthy e.webpage_url then e.webpage_url.getD []
    else if pyTruthy e.id then
      "https://www.youtube.com/watch?v=".toList ++ vid
    else []
  if pyTruthy e.id && !url.isEmpty then some ⟨vid, title, url⟩ else none

/-- `run_yt_dlp_list(playlist_url)` from the source.  `tool` is the
observable subprocess result (exit status, stdout) and `jsonLoads` the
outcome of `json.loads` on a given stdout (`none` = unparseable).
`check_output` raises on a non-zero exit status before any parsing. -/
def run_yt_dlp_list (tool : Int × PyStr)
    (jsonLoads : PyStr → Option YtJson) :
    Except FetchError (List PlaylistEntry) :=
  if tool.1 ≠ 0 then .error (.toolFailed tool.1)
  else
    match jsonLoads tool.2 with
    | none => .error .parseFailed
    | some data => .ok ((data.entries.getD []).filterMap listerItem)

/-! ## Run Orchestrator -/

structure SummaryRow where
  video_id : PyStr
  url : PyStr
  title : PyStr
  source : PyStr
  char_len : Nat
deriving DecidableEq

/-- One line appended to the aggregate line-delimited document. -/
structure JsonlRecord where
  video_id : PyStr
  url : PyStr
  title : PyStr
  source : PyStr
  chunks : List CaptionChunk
deriving DecidableEq

/-- One per-video file written under `transcripts/`. -/
structure FileWrite where
  name : PyStr
  content : PyStr
deriving DecidableEq

/-- The observable outcome of `fetch_best_english_transcript(vid)` at the
orchestrator's `try` boundary: a chunk list with its source label, or one
of the caught exception shapes.  `otherError` carries
`type(e).__name__`. -/
inductive VideoOutcome
  | success (chunks : List CaptionChunk) (src : PyStr)
  | transcriptsDisabled
  | noTranscriptFound
  | videoUnavailable
  | otherError (kindName : PyStr)
deriving DecidableEq

/-- The body of the orchestrator's per-video loop (the `try`/`except`
block of `main`): the summary row appended for this video, the per-video
files written, and the lines appended to the aggregate document.
`title = it["title"] or vid` substitutes the video id for an empty
title before any branch runs. -/
def processVideo (it : PlaylistEntry) (outcome : VideoOutcome) :
    SummaryRow × List FileWrite × List JsonlRecord :=
  let vid := it.video_id
  let url := it.url
  let title := if it.title.isEmpty then vid else it.title
  match outcome with
  | .success chunks src =>
    let text := join_text chunks
    let txt_name := safe_filename title (" [".toList ++ vid ++ "].txt".toList) 120
    let srt_name := safe_filename title (" [".toList ++ vid ++ "].srt".toList) 120
    (⟨vid, url, title, src, text.length⟩,
     [⟨txt_name, text⟩, ⟨srt_name, to_srt chunks⟩],
     [⟨vid, url, title, src, chunks⟩])
  | .transcriptsDisabled => (⟨vid, url, title, "none".toList, 0⟩, [], [])
  | .noTranscriptFound => (⟨vid, url, title, "none".toList, 0⟩, [], [])
  | .videoUnavailable => (⟨vid, url, title, "unavailable".toList, 0⟩, [], [])
  | .otherError k => (⟨vid, url, title, "error: ".toList ++ k, 0⟩, [], [])

/-- The orchestrator's `for it in items` loop, with the per-video fetch
outcome supplied by the oracle `fetch` (the captions service is a
black-box collaborator).  Accumulates rows in order, and the file writes
and aggregate lines of every video. -/
def mainLoop (fetch : PyStr → VideoOutcome) :
    List PlaylistEntry → List SummaryRow × List FileWrite × List JsonlRecord
  | [] => ([], [], [])
  | it :: rest =>
    let r := processVideo it (fetch it.video_id)
    let rs := mainLoop fetch rest
    (r.1 :: rs.1, r.2.1 ++ rs.2.1, r.2.2 ++ rs.2.2)

/-- Filesystem-visible effects of `main`, in program order. -/
inductive Effect
  | mkdirTranscripts
  | deleteJsonl
  | enumeratePlaylist
  | writeFile (f : FileWrite)
  | appendJsonl (r : JsonlRecord)
  | writeCsv (rows : List SummaryRow)
deriving DecidableEq

/-- How `main` terminates: `sys.exit(n)`, an uncaught enumeration
exception, or normal completion having written `n` summary rows. -/
inductive MainOutcome
  | exitCode (n : Nat)
  | uncaught (e : FetchError)
  | done (rowCount : Nat)
deriving DecidableEq

/-- The modelled filesystem: the content of `transcripts.jsonl`
(`none` = the file does not exist). -/
structure FS where
  jsonl : Option (List JsonlRecord)
deriving DecidableEq

/-- The effect trace of the per-video loop: for each video, its file
writes then its aggregate-line append. -/
def loopEffects (fetch : PyStr → VideoOutcome) :
    List PlaylistEntry → List Effect
  | [] => []
  | it :: rest =>
    let r := processVideo it (fetch it.video_id)
    r.2.1.map .writeFile ++ r.2.2.map .appendJsonl ++ loopEffects fetch rest

/-- `main()` from the source as an outcome plus effect trace: argument
check (`sys.exit(2)`), `mkdir`, conditional deletion of
`transcripts.jsonl`, playlist enumeration (whose outcome `lister` is
injected; its exception propagates uncaught), empty-list check
(`sys.exit(1)`), the per-video loop, and the final summary-table write. -/
def mainModel (argv : List PyStr) (fs0 : FS)
    (lister : Except FetchError (List PlaylistEntry))
    (fetch : PyStr → VideoOutcome) : MainOutcome × List Effect :=
  if argv.length < 2 then (.exitCode 2, [])
  else
    let pre := Effect.mkdirTranscripts ::
      (if fs0.jsonl.isSome then [Effect.deleteJsonl] else []) ++
      [Effect.enumeratePlaylist]
    match lister with
    | .error e => (.uncaught e, pre)
    | .ok items =>
      if items.isEmpty then (.exitCode 1, pre)
      else
        let res := mainLoop fetch items
        (.done res.1.length,
         pre ++ loopEffects fetch items ++ [.writeCsv res.1])

/-- The filesystem meaning of one effect. -/
def applyEffect (fs : FS) : Effect → FS
  | .deleteJsonl => ⟨none⟩
  | .appendJsonl r => ⟨some (fs.jsonl.getD [] ++ [r])⟩
  | _ => fs

def runFs (fs : FS) (effs : List Effect) : FS := effs.foldl applyEffect fs

/-! ## Spec-side definitions, for comparison with the source embedding -/

/-- Modelled from the claim's wording for the sanitizer: the same pipeline
as `safe_filename` but with canonical composition (NFC) in place of the
source's compatibility normalization (NFKC). -/
def safe_filename_claim_nfc (name suffix : PyStr) (max_len : Nat) : PyStr :=
  let n1 := nfcNormalize name
  let n2 := n1.filter pyIsPrintable
  let n3 := collapseRuns isBadFileChar ' ' n2
  let n4 := pyStrip (collapseRuns isPySpace ' ' n3)
  let bm : Int := (max_len : Int) - (suffix.length : Int)
  let base_max : Nat := if bm < 1 then 1 else bm.toNat
  let n5 := if base_max < n4.length then pyRstrip (n4.take base_max) else n4
  n5 ++ suffix

/-- The spec's description of the sanitizer's title processing as a
composition: compatibility normalization, then the printable filter, then
forbidden-character replacement, then whitespace collapsing and
trimming. -/
def sanitizeTitleNFKC (name : PyStr) : PyStr :=
  pyStrip (collapseRuns isPySpace ' '
    (collapseRuns isBadFileChar ' '
      (List.filter pyIsPrintable (nfkcNormalize name))))

/-- The spec's description of the final sanitizer step: clamp the title
budget to at least one character, truncate, trim trailing whitespace,
append the suffix. -/
def fitAndAppend (t suffix : PyStr) (ml : Nat) : PyStr :=
  let avail := max 1 (ml - suffix.length)
  (if avail < t.length then pyRstrip (t.take avail) else t) ++ suffix

/-! ## Helper lemmas -/

lemma length_pyRstrip_le (s : PyStr) : (pyRstrip s).length ≤ s.length := by
  have h : (s.reverse.dropWhile isPySpace).length ≤ s.reverse.length :=
    (List.dropWhile_sublist isPySpace).length_le
  simpa [pyRstrip] using h

lemma mem_of_mem_pyStrip {a : Char} {s : PyStr} (h : a ∈ pyStrip s) :
    a ∈ s := by
  unfold pyStrip at h
  rw [List.mem_reverse] at h
  have h1 := (List.dropWhile_sublist isPySpace).subset h
  rw [List.mem_reverse] at h1
  exact (List.dropWhile_sublist isPySpace).subset h1

lemma mem_sepJoin {a : Char} (sep : PyStr) :
    ∀ l : List PyStr, a ∈ sepJoin sep l → a ∈ sep ∨ ∃ x ∈ l, a ∈ x
  | [], h => by simp [sepJoin] at h
  | [x], h => Or.inr ⟨x, by simp, by simpa [sepJoin] using h⟩
  | x :: y :: ys, h => by
    rw [show sepJoin sep (x :: y :: ys) = x ++ sep ++ sepJoin sep (y :: ys)
        from rfl] at h
    rcases List.mem_append.mp h with h1 | h1
    · rcases List.mem_append.mp h1 with h2 | h2
      · exact Or.inr ⟨x, by simp, h2⟩
      · exact Or.inl h2
    · rcases mem_sepJoin sep (y :: ys) h1 with h2 | ⟨z, hz, ha⟩
      · exact Or.inl h2
      · exact Or.inr ⟨z, List.mem_cons_of_mem x hz, ha⟩

lemma sepJoin_eq_intercalate (sep : PyStr) :
    ∀ l : List PyStr, sepJoin sep l = List.intercalate sep l
  | [] => by simp [sepJoin, List.intercalate]
  | [x] => by simp [sepJoin, List.intercalate]
  | x :: y :: ys => by
    rw [show sepJoin sep (x :: y :: ys) = x ++ sep ++ sepJoin sep (y :: ys)
        from rfl]
    rw [sepJoin_eq_intercalate sep (y :: ys)]
    simp [List.intercalate, List.intersperse]

lemma replaceNl_no_newline (s : PyStr) :
    '\n' ∉ pyReplaceChar '\n' ' ' s := by
  intro h
  rw [pyReplaceChar, List.mem_map] at h
  rcases h with ⟨c, _, hc⟩
  by_cases h2 : c = '\n' <;> simp [h2] at hc

lemma trunc_length_le (t : PyStr) (b : Nat) :
    (if b < t.length then pyRstrip (t.take b) else t).length ≤ b := by
  split
  · exact le_trans (length_pyRstrip_le _) (by simp)
  · omega

/-- The translation loop is a first-match search: it returns the
translation of the first track that is translatable and whose
translate-and-fetch succeeds. -/
lemma translateLoop_eq_find (l : List TranscriptTrack) :
    translateLoop l =
      (l.find? (fun tr => tr.is_translatable && tr.translateFetchEn.isSome)).map
        (fun tr => (tr.translateFetchEn.getD [],
          tr.language_code ++ "->en".toList)) := by
  induction l with
  | nil => rfl
  | cons tr rest ih =>
    by_cases h1 : tr.is_translatable
    · cases h2 : tr.translateFetchEn with
      | some c => simp [translateLoop, List.find?_cons, h1, h2]
      | none => simp [translateLoop, List.find?_cons, h1, h2, ih]
    · simp [translateLoop, List.find?_cons, h1, ih]

/-- The truncated-base-plus-suffix shape of `safe_filename`'s result. -/
lemma sf_shape (name suffix : PyStr) (ml : Nat) :
    ∃ t : PyStr, safe_filename name suffix ml =
      (if (if ((ml : Int) - (suffix.length : Int)) < 1 then 1
            else ((ml : Int) - (suffix.length : Int)).toNat) < t.length
        then pyRstrip (t.take (if ((ml : Int) - (suffix.length : Int)) < 1
            then 1 else ((ml : Int) - (suffix.length : Int)).toNat))
        else t) ++ suffix :=
  ⟨_, rfl⟩

/-! ## Claims -/

set_option maxRecDepth 8000 in
/-- C5 counterexample: with the default bound 120 and a 120-character
suffix, the output of `safe_filename` has length 121, so "length at most
max_len for every title and every suffix" fails as stated. -/
theorem safe_filename_length_counterexample :
    (safe_filename "ab".toList (List.replicate 120 'x') 120).length = 121 ∧
    ¬(safe_filename "ab".toList (List.replicate 120 'x') 120).length ≤ 120 := by
  decide

/-- C5 (amended): `safe_filename` always ends with the exact suffix and
its length never exceeds `max max_len (suffix.length + 1)`; whenever the
suffix is shorter than `max_len` (in particular for every suffix that
leaves a positive title budget) the output length is at most `max_len`.
The 1-character clamp is what makes the general bound
`suffix.length + 1` rather than `suffix.length`. -/
theorem safe_filename_bounds (name suffix : PyStr) (max_len : Nat) :
    suffix.IsSuffix (safe_filename name suffix max_len) ∧
    (safe_filename name suffix max_len).length ≤
      max max_len (suffix.length + 1) ∧
    (suffix.length < max_len →
      (safe_filename name suffix max_len).length ≤ max_len) := by
  obtain ⟨t, ht⟩ := sf_shape name suffix max_len
  rw [ht]
  set b := (if ((max_len : Int) - (suffix.length : Int)) < 1 then 1
      else ((max_len : Int) - (suffix.length : Int)).toNat) with hb
  have hlen := trunc_length_le t b
  have hbb : (max_len ≤ suffix.length ∧ b = 1) ∨
      (suffix.length < max_len ∧ b + suffix.length = max_len) := by
    rw [hb]
    split
    · exact Or.inl ⟨by omega, rfl⟩
    · exact Or.inr ⟨by omega, by omega⟩
  refine ⟨⟨_, rfl⟩, ?_, ?_⟩
  · rw [List.length_append]
    rcases hbb with ⟨h1, h2⟩ | ⟨h1, h2⟩ <;> omega
  · intro hs
    rw [List.length_append]
    rcases hbb with ⟨h1, h2⟩ | ⟨h1, h2⟩ <;> omega

/-- C5 witness: at a concrete title and suffix with
`suffix.length < max_len`, the output ends with the suffix and fits the
bound. -/
theorem safe_filename_bounds_witness :
    ".txt".toList.IsSuffix
      (safe_filename "My Video".toList ".txt".toList 120) ∧
    (safe_filename "My Video".toList ".txt".toList 120).length ≤ 120 :=
  ⟨(safe_filename_bounds "My Video".toList ".txt".toList 120).1,
   (safe_filename_bounds "My Video".toList ".txt".toList 120).2.2
     (by decide)⟩

/-- C8 counterexample: the source normalizes with NFKC, not NFC.  On the
title "①" (U+2460, which NFC leaves unchanged but NFKC maps to "1") the
source sanitizer and the claim's NFC pipeline disagree. -/
theorem safe_filename_nfc_counterexample :
    safe_filename "①".toList ".txt".toList 120 = "1.txt".toList ∧
    safe_filename_claim_nfc "①".toList ".txt".toList 120 = "①.txt".toList ∧
    safe_filename "①".toList ".txt".toList 120 ≠
      safe_filename_claim_nfc "①".toList ".txt".toList 120 := by
  decide

/-- C8 (amended): the sanitizer normalizes the title to its compatibility
composed form (NFKC) and drops non-printable characters before applying
character replacement and whitespace collapsing; the truncation step
clamps the title budget to a 1-character minimum. -/
theorem safe_filename_nfkc_order (name suffix : PyStr) (ml : Nat) :
    safe_filename name suffix ml =
      fitAndAppend (sanitizeTitleNFKC name) suffix ml := by
  have hbudget : (if ((ml : Int) - (suffix.length : Int)) < 1 then (1 : Nat)
      else ((ml : Int) - (suffix.length : Int)).toNat)
      = max 1 (ml - suffix.length) := by
    split <;> omega
  simp only [safe_filename, fitAndAppend, sanitizeTitleNFKC, hbudget]

/-- C6: `join_text` equals the single-space intercalation of the
per-chunk processed texts (line breaks replaced by spaces, then trimmed)
of the chunks whose raw text is present and non-empty; chunks with absent
or empty text are skipped wherever they occur; and the result contains no
line break. -/
theorem join_text_single_line :
    (∀ chunks : List CaptionChunk,
        join_text chunks =
          List.intercalate [' ']
            ((chunks.filter (fun c => !(chunkTextRaw c).isEmpty)).map
              (fun c => pyStrip (pyReplaceChar '\n' ' ' (chunkTextRaw c))))) ∧
    (∀ (pre post : List CaptionChunk) (s : ℚ) (d : Option ℚ),
        join_text (pre ++ ⟨none, s, d⟩ :: post) = join_text (pre ++ post) ∧
        join_text (pre ++ ⟨some [], s, d⟩ :: post) = join_text (pre ++ post)) ∧
    (∀ chunks : List CaptionChunk, (join_text chunks).count '\n' = 0) := by
  refine ⟨?_, ?_, ?_⟩
  · intro chunks
    rw [join_text, sepJoin_eq_intercalate]
  · intro pre post s d
    constructor <;>
      simp [join_text, List.filter_append, List.filter_cons, chunkTextRaw]
  · intro chunks
    rw [List.count_eq_zero]
    intro h
    simp only [join_text] at h
    rcases mem_sepJoin [' '] _ h with h1 | ⟨x, hx, ha⟩
    · simp at h1
    · rw [List.mem_map] at hx
      rcases hx with ⟨c, _, rfl⟩
      exact replaceNl_no_newline _ (mem_of_mem_pyStrip ha)

/-- C4: the timestamp formatter at the spec's three sample inputs.  The
first two match the spec, but at 59.9996 the code rounds the fractional
part to 1000 milliseconds and zero-pads without carrying, emitting
"00:00:59,1000" instead of the claimed "00:01:00,000". -/
theorem fmt_sample_values :
    fmt 0 = "00:00:00,000".toList ∧
    fmt (37254567 / 10000 : ℚ) = "01:02:05,457".toList ∧
    fmt (599996 / 10000 : ℚ) = "00:00:59,1000".toList ∧
    fmt (599996 / 10000 : ℚ) ≠ "00:01:00,000".toList := by
  refine ⟨?_, ?_, ?_, ?_⟩ <;>
    · norm_num [fmt, pyMod, pyInt, pyRound]
      decide

/-- C1: when the direct English fetch and both English-track lookups have
failed, the fetcher returns the translation of the first listed track
that is flagged translatable and whose translate-and-fetch succeeds
(failed attempts are skipped, not fatal), labelled with the track's
language code followed by "->en", and raises NoTranscriptFound exactly
when no such track exists. -/
theorem fetch_translate_fallback (direct : Option (List CaptionChunk))
    (listing : TranscriptListing)
    (h1 : direct = none) (h2 : listing.findManualEn = none)
    (h3 : listing.findGeneratedEn = none) :
    fetch_best_english_transcript direct listing =
      (match listing.tracks.find?
          (fun tr => tr.is_translatable && tr.translateFetchEn.isSome) with
        | some tr => .ok (tr.translateFetchEn.getD [],
            tr.language_code ++ "->en".toList)
        | none => .error .noTranscriptFound) := by
  subst h1
  simp only [fetch_best_english_transcript, h2, h3]
  rw [translateLoop_eq_find]
  cases listing.tracks.find?
      (fun tr => tr.is_translatable && tr.translateFetchEn.isSome) <;>
    simp

/-- C1 witness: a listing with a non-translatable track, a translatable
track whose translation fails, and a translatable track whose translation
succeeds; the fetcher skips the failed attempt and returns the third
track's translation labelled "de->en". -/
theorem fetch_translate_fallback_witness :
    fetch_best_english_transcript none
      ⟨[⟨"fr".toList, false, none⟩,
        ⟨"es".toList, true, none⟩,
        ⟨"de".toList, true, some [⟨some "hallo".toList, 0, none⟩]⟩],
       none, none⟩ =
      .ok ([⟨some "hallo".toList, 0, none⟩], "de->en".toList) := by
  rw [fetch_translate_fallback none _ rfl rfl rfl]
  rfl

/-- C7: the Playlist Lister fails with a FetchError exactly when the
external enumeration tool exits non-zero (the subprocess error, raised
before any parsing) or its output is not parseable structured data. -/
theorem run_yt_dlp_list_fetch_error (tool : Int × PyStr)
    (jsonLoads : PyStr → Option YtJson) :
    (tool.1 ≠ 0 →
      run_yt_dlp_list tool jsonLoads = .error (.toolFailed tool.1)) ∧
    (tool.1 = 0 → jsonLoads tool.2 = none →
      run_yt_dlp_list tool jsonLoads = .error .parseFailed) ∧
    (∀ e, run_yt_dlp_list tool jsonLoads = .error e →
      tool.1 ≠ 0 ∨ jsonLoads tool.2 = none) := by
  refine ⟨?_, ?_, ?_⟩
  · intro h
    simp [run_yt_dlp_list, h]
  · intro h hp
    simp [run_yt_dlp_list, h, hp]
  · intro e he
    by_cases h : tool.1 = 0
    · right
      simp only [run_yt_dlp_list, h] at he
      cases hp : jsonLoads tool.2 with
      | none => rfl
      | some d => rw [hp] at he; simp at he
    · exact Or.inl h

/-- C7 witness: a non-zero tool exit yields the subprocess FetchError; a
zero exit with unparseable output yields the parse FetchError. -/
theorem run_yt_dlp_list_fetch_error_witness :
    run_yt_dlp_list (1, []) (fun _ => none) = .error (.toolFailed 1) ∧
    run_yt_dlp_list (0, []) (fun _ => none) = .error .parseFailed :=
  ⟨(run_yt_dlp_list_fetch_error (1, []) (fun _ => none)).1 (by decide),
   (run_yt_dlp_list_fetch_error (0, []) (fun _ => none)).2.1 rfl rfl⟩

/-- C2: each per-video failure outcome is converted into a summary row
instead of raising: TranscriptsDisabled and NoTranscriptFound map to
source "none", VideoUnavailable to "unavailable", any other exception to
"error: " followed by its kind name; every failure outcome writes no
per-video files, appends no aggregate line, and records char_len 0; and
the loop step on a cons simply appends this video's row and proceeds with
the rest. -/
theorem per_video_failure_classification (it : PlaylistEntry)
    (rest : List PlaylistEntry) (fetch : PyStr → VideoOutcome) (k : PyStr) :
    (processVideo it .transcriptsDisabled).1.source = "none".toList ∧
    (processVideo it .noTranscriptFound).1.source = "none".toList ∧
    (processVideo it .videoUnavailable).1.source = "unavailable".toList ∧
    (processVideo it (.otherError k)).1.source = "error: ".toList ++ k ∧
    (processVideo it .transcriptsDisabled).2 = ([], []) ∧
    (processVideo it .noTranscriptFound).2 = ([], []) ∧
    (processVideo it .videoUnavailable).2 = ([], []) ∧
    (processVideo it (.otherError k)).2 = ([], []) ∧
    (processVideo it .transcriptsDisabled).1.char_len = 0 ∧
    (processVideo it .noTranscriptFound).1.char_len = 0 ∧
    (processVideo it .videoUnavailable).1.char_len = 0 ∧
    (processVideo it (.otherError k)).1.char_len = 0 ∧
    mainLoop fetch (it :: rest) =
      ((processVideo it (fetch it.video_id)).1 :: (mainLoop fetch rest).1,
       (processVideo it (fetch it.video_id)).2.1 ++ (mainLoop fetch rest).2.1,
       (processVideo it (fetch it.video_id)).2.2 ++
         (mainLoop fetch rest).2.2) :=
  ⟨rfl, rfl, rfl, rfl, rfl, rfl, rfl, rfl, rfl, rfl, rfl, rfl, rfl⟩

/-- The rows produced by the loop are exactly the per-entry rows, in
input order. -/
lemma mainLoop_rows (fetch : PyStr → VideoOutcome) :
    ∀ entries : List PlaylistEntry,
      (mainLoop fetch entries).1 =
        entries.map (fun it => (processVideo it (fetch it.video_id)).1)
  | [] => rfl
  | it :: rest => by
    simp only [mainLoop, List.map_cons]
    rw [mainLoop_rows fetch rest]

/-- C3: the orchestrator produces exactly one summary row per playlist
entry — the row list has the same length as the entry list and its i-th
element is the row of the i-th entry. -/
theorem one_row_per_entry_in_order (entries : List PlaylistEntry)
    (fetch : PyStr → VideoOutcome) :
    (mainLoop fetch entries).1.length = entries.length ∧
    ∀ i : Nat, (mainLoop fetch entries).1[i]? =
      (entries[i]?).map (fun it => (processVideo it (fetch it.video_id)).1) := by
  rw [mainLoop_rows]
  exact ⟨List.length_map entries _,
    fun i => List.getElem?_map _ entries i⟩

/-- C9: when a playlist entry's title is empty, the orchestrator
substitutes the video id: the summary row's title is the video id for
every outcome, and on success the two per-video file names are built from
the video id as the title, and the aggregate line's title is the video
id. -/
theorem empty_title_uses_video_id (it : PlaylistEntry) (h : it.title = [])
    (chunks : List CaptionChunk) (src : PyStr) (o : VideoOutcome) :
    (processVideo it o).1.title = it.video_id ∧
    (processVideo it (.success chunks src)).2.1.map FileWrite.name =
      [safe_filename it.video_id
        (" [".toList ++ it.video_id ++ "].txt".toList) 120,
       safe_filename it.video_id
        (" [".toList ++ it.video_id ++ "].srt".toList) 120] ∧
    (processVideo it (.success chunks src)).2.2.map JsonlRecord.title =
      [it.video_id] := by
  cases o <;> simp [processVideo, h]

/-- C9 witness: a concrete entry with an empty title. -/
theorem empty_title_uses_video_id_witness :
    (processVideo ⟨"abc".toList, [], "u".toList⟩
        (.success [] "en".toList)).1.title = "abc".toList ∧
    (processVideo ⟨"abc".toList, [], "u".toList⟩
        (.success [] "en".toList)).2.1.map FileWrite.name =
      [safe_filename "abc".toList
        (" [".toList ++ "abc".toList ++ "].txt".toList) 120,
       safe_filename "abc".toList
        (" [".toList ++ "abc".toList ++ "].srt".toList) 120] ∧
    (processVideo ⟨"abc".toList, [], "u".toList⟩
        (.success [] "en".toList)).2.2.map JsonlRecord.title =
      ["abc".toList] :=
  empty_title_uses_video_id ⟨"abc".toList, [], "u".toList⟩ rfl []
    "en".toList (.success [] "en".toList)

/-- C10: whenever the run gets past the argument check, its effect trace
is exactly mkdir, then the deletion of transcripts.jsonl (when the file
exists), then playlist enumeration — and on the aborting runs (uncaught
enumeration failure, or exit 1 on an empty entry list) that is the whole
trace, the run does not complete, and the resulting filesystem no longer
has the previous run's transcripts.jsonl. -/
theorem jsonl_reset_before_enumeration (argv : List PyStr) (fs0 : FS)
    (lister : Except FetchError (List PlaylistEntry))
    (fetch : PyStr → VideoOutcome)
    (h1 : 2 ≤ argv.length)
    (h2 : (∃ e, lister = .error e) ∨ lister = .ok []) :
    (mainModel argv fs0 lister fetch).2 =
      Effect.mkdirTranscripts ::
        ((if fs0.jsonl.isSome then [Effect.deleteJsonl] else []) ++
         [Effect.enumeratePlaylist]) ∧
    (runFs fs0 (mainModel argv fs0 lister fetch).2).jsonl = none ∧
    ∀ n, (mainModel argv fs0 lister fetch).1 ≠ .done n := by
  have hlt : ¬argv.length < 2 := by omega
  rcases h2 with ⟨e, rfl⟩ | rfl <;>
    cases hfs : fs0.jsonl <;>
      simp [mainModel, hlt, runFs, applyEffect, hfs]

/-- C10 witness: a concrete aborting run (two CLI arguments, an existing
transcripts.jsonl, enumeration returning an empty entry list) ends with
the previous transcripts.jsonl removed. -/
theorem jsonl_reset_before_enumeration_witness :
    (runFs ⟨some []⟩
      (mainModel ["p".toList, "u".toList] ⟨some []⟩ (.ok [])
        (fun _ => VideoOutcome.noTranscriptFound)).2).jsonl = none :=
  (jsonl_reset_before_enumeration ["p".toList, "u".toList] ⟨some []⟩
    (.ok []) (fun _ => VideoOutcome.noTranscriptFound)
    (by decide) (Or.inr rfl)).2.1

end PullTranscripts
